import Mathlib

/-!
Verification of the DevPilot SDLC workflow-orchestration core.

The definitions below are a shallow embedding of the Python sources:
  * `src/dev_pilot/nodes/autonomous_nodes.py`  (review routers)
  * `src/dev_pilot/cache/redis_cache.py`       (session store)
  * `src/dev_pilot/graph/autonomous_graph_executor.py` (session facade)
  * `src/dev_pilot/agents/agent_manager.py`    (agent coordination)
  * `src/dev_pilot/connectors/connector_manager.py` and
    `src/dev_pilot/connectors/base_connector.py` (connector gateway)

Python values flowing through the workflow state are modelled by the JSON-like
type `Val`; Python dicts are association lists with insertion-order-preserving
replace-on-update semantics; raising Python code is modelled in `Except PyErr`.
-/

namespace DevPilot

/-- A Python value as it appears in the workflow state: everything the state
holds is JSON-representable (the cache serializes it with `json.dumps`). -/
inductive Val where
  | null
  | bool (b : Bool)
  | int (n : Int)
  | str (s : String)
  | arr (xs : List Val)
  | obj (fields : List (String × Val))

/-- Python exceptions raised by the embedded code. -/
inductive PyErr where
  | valueError (msg : String)
  | keyError (msg : String)
  | indexError (msg : String)
  | typeError (msg : String)
  | attributeError (msg : String)
deriving DecidableEq

/-- Python truthiness (`bool(v)`) for the modelled values: `None`, `False`,
`0`, `""`, `[]` and `{}` are falsy, everything else truthy. -/
def Val.truthy : Val → Bool
  | .null => false
  | .bool b => b
  | .int n => n != 0
  | .str s => !s.isEmpty
  | .arr xs => !xs.isEmpty
  | .obj fs => !fs.isEmpty

/-- `d[k]` read on a Python dict modelled as an association list: the first
binding for `k` (updates replace in place, so keys are unique). -/
def dictGet : List (String × Val) → String → Option Val
  | [], _ => none
  | (k', v') :: rest, k => if k' = k then some v' else dictGet rest k

/-- `d.get(k, default)` on a Python dict. -/
def dictGetD (d : List (String × Val)) (k : String) (dflt : Val) : Val :=
  (dictGet d k).getD dflt

/-- `d[k] = v` on a Python dict: replaces the existing binding in place or
appends a new one (Python dicts preserve insertion order). -/
def dictSet : List (String × Val) → String → Val → List (String × Val)
  | [], k, v => [(k, v)]
  | (k', v') :: rest, k, v =>
    if k' = k then (k, v) :: rest else (k', v') :: dictSet rest k v

/-- The workflow state (`SDLCState`) is a Python dict from field names to
values; the executor and the nodes access it exclusively with dict
operations (`state.get`, `state[...] = ...`, `state.update`). -/
abbrev SDLCState := List (String × Val)

/-- `v.get(k)` in Python: succeeds when `v` is a dict (returning `None` when
the key is absent) and raises `AttributeError` on any non-dict value. -/
def Val.pyGet (v : Val) (k : String) : Except PyErr Val :=
  match v with
  | .obj fs => .ok ((dictGet fs k).getD .null)
  | _ => .error (.attributeError "object has no attribute get")

/-- `v.get(k, dflt)` in Python: like `pyGet` but with an explicit default. -/
def Val.pyGetD (v : Val) (k : String) (dflt : Val) : Except PyErr Val :=
  match v with
  | .obj fs => .ok ((dictGet fs k).getD dflt)
  | _ => .error (.attributeError "object has no attribute get")

/-- Modelled from the spec: `src/dev_pilot/utils/constants.py` is not in the
sources; the phase-name constants are modelled as the distinct strings of the
fixed phase vocabulary of spec section 4.1/6 (each work phase, its review
phase, and the terminal artifacts phase have distinct names; only their
distinctness and stability are used below). -/
def PROJECT_INITILIZATION : String := "project_initilization"

def REQUIREMENT_COLLECTION : String := "requirement_collection"

def GENERATE_USER_STORIES : String := "generate_user_stories"

def REVIEW_USER_STORIES : String := "review_user_stories"

def CREATE_DESIGN_DOC : String := "create_design_document"

def REVIEW_DESIGN_DOCUMENTS : String := "review_design_documents"

def CODE_GENERATION : String := "code_generation"

def REVIEW_CODE : String := "review_code"

def SECURITY_REVIEW : String := "security_review"

def REVIEW_SECURITY_RECOMMENDATIONS : String := "review_security_recommendations"

def WRITE_TEST_CASES : String := "write_test_cases"

def REVIEW_TEST_CASES : String := "review_test_cases"

def QA_TESTING : String := "qa_testing"

def REVIEW_QA_TESTING : String := "review_qa_testing"

def DEPLOYMENT : String := "deployment"

def ARTIFACTS : String := "artifacts"

/-! ### Review routers (`autonomous_nodes.py`)

Each router is a plain function from the state to the edge label used by the
graph's conditional edges.  A raising router is an `.error`; the returned
edge label is a `Val` because Python returns whatever object
`state.get(status_key, "approved")` holds. -/

/-- The inner `try` block of `autonomous_user_stories_router`
(`autonomous_nodes.py` lines 139-147): look up the phase's bucket of the
agent execution log and test whether the business analyst entry is completed
without error.  `.ok true` means the `return "autonomous_approve"` line runs;
any raise is swallowed by the bare `except: pass`. -/
def userStoriesAutoCheck (st : SDLCState) : Except PyErr Bool :=
  match (dictGetD st "agent_execution_log" (.obj [])).pyGetD GENERATE_USER_STORIES (.obj []) with
  | .error e => .error e
  | .ok recs =>
    if recs.truthy then
      match recs.pyGetD "business_analyst_agent" (.obj []) with
      | .error e => .error e
      | .ok ba =>
        match ba.pyGet "completed", ba.pyGet "error" with
        | .ok c, .ok err => .ok (c.truthy && !err.truthy)
        | .error e, _ => .error e
        | _, .error e => .error e
    else .ok false

/-- `AutonomousProjectNode.autonomous_user_stories_router`
(`autonomous_nodes.py` lines 130-150).  The `confidence_threshold = 0.8`
binding of line 136 is dead: no router consults it. -/
def autonomous_user_stories_router (st : SDLCState) : Except PyErr Val :=
  match (dictGetD st "autonomous_review" (.obj [])).pyGet "auto_reviewed" with
  | .error e => .error e
  | .ok flag =>
    if flag.truthy then
      match userStoriesAutoCheck st with
      | .ok true => .ok (.str "autonomous_approve")
      | _ => .ok (dictGetD st "user_stories_review_status" (.str "approved"))
    else .ok (dictGetD st "user_stories_review_status" (.str "approved"))

/-- The inner `try` block of `autonomous_design_documents_router`
(`autonomous_nodes.py` lines 222-229): the software architect's entry in the
design phase's execution-log bucket must be completed without error. -/
def designAutoCheck (st : SDLCState) : Except PyErr Bool :=
  match (dictGetD st "agent_execution_log" (.obj [])).pyGetD CREATE_DESIGN_DOC (.obj []) with
  | .error e => .error e
  | .ok recs =>
    if recs.truthy then
      match recs.pyGetD "software_architect_agent" (.obj []) with
      | .error e => .error e
      | .ok arch =>
        match arch.pyGet "completed", arch.pyGet "error" with
        | .ok c, .ok err => .ok (c.truthy && !err.truthy)
        | .error e, _ => .error e
        | _, .error e => .error e
    else .ok false

/-- `AutonomousDesignNode.autonomous_design_documents_router`
(`autonomous_nodes.py` lines 217-231). -/
def autonomous_design_documents_router (st : SDLCState) : Except PyErr Val :=
  match (dictGetD st "autonomous_design_review" (.obj [])).pyGet "auto_reviewed" with
  | .error e => .error e
  | .ok flag =>
    if flag.truthy then
      match designAutoCheck st with
      | .ok true => .ok (.str "autonomous_approve")
      | _ => .ok (dictGetD st "design_documents_review_status" (.str "approved"))
    else .ok (dictGetD st "design_documents_review_status" (.str "approved"))

/-- `AutonomousCodingNode.autonomous_code_review_router`
(`autonomous_nodes.py` lines 464-469): whenever the recorded autonomous code
review carries a truthy `auto_reviewed` flag the router returns
`"autonomous_approve"` outright; only otherwise does it read the explicit
`code_review_status`. -/
def autonomous_code_review_router (st : SDLCState) : Except PyErr Val :=
  match (dictGetD st "autonomous_code_review" (.obj [])).pyGet "auto_reviewed" with
  | .error e => .error e
  | .ok flag =>
    if flag.truthy then .ok (.str "autonomous_approve")
    else .ok (dictGetD st "code_review_status" (.str "approved"))

/-- `AutonomousCodingNode.autonomous_security_review_router`
(`autonomous_nodes.py` lines 471-476). -/
def autonomous_security_review_router (st : SDLCState) : Except PyErr Val :=
  match (dictGetD st "autonomous_security_review" (.obj [])).pyGet "auto_reviewed" with
  | .error e => .error e
  | .ok flag =>
    if flag.truthy then .ok (.str "autonomous_approve")
    else .ok (dictGetD st "security_review_status" (.str "approved"))

/-- `AutonomousCodingNode.autonomous_test_cases_router`
(`autonomous_nodes.py` lines 478-483). -/
def autonomous_test_cases_router (st : SDLCState) : Except PyErr Val :=
  match (dictGetD st "autonomous_test_review" (.obj [])).pyGet "auto_reviewed" with
  | .error e => .error e
  | .ok flag =>
    if flag.truthy then .ok (.str "autonomous_approve")
    else .ok (dictGetD st "test_case_review_status" (.str "approved"))

/-- `AutonomousCodingNode.autonomous_qa_review_router`
(`autonomous_nodes.py` lines 485-490). -/
def autonomous_qa_review_router (st : SDLCState) : Except PyErr Val :=
  match (dictGetD st "autonomous_qa_review" (.obj [])).pyGet "auto_reviewed" with
  | .error e => .error e
  | .ok flag =>
    if flag.truthy then .ok (.str "autonomous_approve")
    else .ok (dictGetD st "qa_testing_status" (.str "approved"))

/-! ### Session store (`redis_cache.py`, in-memory branch: `USE_REDIS = False`)

`json.dumps`/`json.loads` round-trip JSON-representable documents, so the
cache (`_memory_cache`) is modelled as storing the parsed document `Val`
directly; the serialized text of any document is a non-empty string, so the
`if not state_json` guard of `get_state_from_redis` never fires for a
present entry. -/

/-- The in-memory session cache: a dict from task id to the saved JSON
document. -/
abbrev Cache := List (String × Val)

/-- `save_state_to_redis` (redis_cache.py lines 24-35): serialize the state
and store it under the task id. -/
def save_state_to_redis (cache : Cache) (task_id : String) (state : Val) : Cache :=
  dictSet cache task_id state

/-- Python subscription `x[0]` as applied to the parsed JSON document
(`json.loads(state_json)[0]`, redis_cache.py line 51): after `json.loads`
every dict key is a string, so subscripting a dict with the int `0` raises
`KeyError`; a list or string yields its first element or `IndexError`; any
other value raises `TypeError`. -/
def pyIndexZero (v : Val) : Except PyErr Val :=
  match v with
  | .arr (x :: _) => .ok x
  | .arr [] => .error (.indexError "list index out of range")
  | .obj _ => .error (.keyError "0")
  | .str s =>
    match s.toList with
    | c :: _ => .ok (.str (String.mk [c]))
    | [] => .error (.indexError "string index out of range")
  | _ => .error (.typeError "object is not subscriptable")

/-- Modelled from the spec: `src/dev_pilot/state/sdlc_state.py` is absent
from the sources.  The spec's WorkflowState is a record of named fields that
the executor accesses exclusively with dict operations, so
`SDLCState(**state_dict)` reconstructs the state from the field mapping: it
succeeds exactly on a mapping and yields the same field bindings, raising
`TypeError` on any non-mapping argument. -/
def sdlcStateOfDict (v : Val) : Except PyErr SDLCState :=
  match v with
  | .obj fs => .ok fs
  | _ => .error (.typeError "argument of type SDLCState must be a mapping")

/-- `get_state_from_redis` (redis_cache.py lines 37-52): fetch the stored
document, subscript it with `0`, and rebuild an `SDLCState` from the result;
a missing entry yields `None`. -/
def get_state_from_redis (cache : Cache) (task_id : String) :
    Except PyErr (Option SDLCState) :=
  match dictGet cache task_id with
  | none => .ok none
  | some doc =>
    match pyIndexZero doc with
    | .error e => .error e
    | .ok d =>
      match sdlcStateOfDict d with
      | .error e => .error e
      | .ok st => .ok (some st)

/-- `delete_from_redis` (redis_cache.py lines 54-62). -/
def delete_from_redis (cache : Cache) (task_id : String) : Cache :=
  cache.filter (fun kv => kv.1 ≠ task_id)

/-- `flush_redis_cache` (redis_cache.py lines 64-73): clears the entire
cache — every session's entry, not only the caller's. -/
def flush_redis_cache (_cache : Cache) : Cache := []

/-- The session-store effect of
`AutonomousGraphExecutor.start_autonomous_workflow`
(autonomous_graph_executor.py lines 55-101): the operation first calls
`flush_redis_cache()` (line 61), then generates a fresh task id and — after
the graph run, which touches no cache entry — saves the new session's
snapshot under that id (line 86). -/
def start_autonomous_workflow_cache (cache : Cache) (task_id : String)
    (snapshot : Val) : Cache :=
  save_state_to_redis (flush_redis_cache cache) task_id snapshot

/-- The phase's auto-review flag is absent or falsy: the recorded
`autonomous_*_review` entry (default `{}`) is a dict whose `auto_reviewed`
key reads back a non-truthy value, so the router's autonomous branch is not
taken. -/
def noAutoReview (st : SDLCState) (key : String) : Prop :=
  ∃ f, (dictGetD st key (.obj [])).pyGet "auto_reviewed" = .ok f ∧ f.truthy = false

/-- A state in which a human set `code_review_status = "feedback"`, the
session is not autonomous, and the `code_review` node has recorded its
unconditional `auto_reviewed` marker (`autonomous_nodes.py` lines 264-279). -/
def c1State : SDLCState :=
  [("autonomous_mode", .bool false),
   ("code_review_status", .str "feedback"),
   ("autonomous_code_review", .obj [("auto_reviewed", .bool true)])]

end DevPilot

namespace DevPilot

/-- C1 counterexample: with `autonomous_mode = false` and the code-review
status explicitly set to `"feedback"`, the code-review router still returns
`"autonomous_approve"` (not the explicit value) because the recorded
autonomous review's `auto_reviewed` flag alone decides the branch — the
router never reads `autonomous_mode`. -/
theorem C1_counterexample :
    dictGet c1State "autonomous_mode" = some (.bool false) ∧
    dictGet c1State "code_review_status" = some (.str "feedback") ∧
    autonomous_code_review_router c1State = .ok (.str "autonomous_approve") ∧
    ("autonomous_approve" : String) ≠ "feedback" := by
  exact ⟨rfl, rfl, rfl, by decide⟩

/-- C1 (amended): for every gate phase, when no autonomous review has been
recorded for that phase (its `auto_reviewed` flag is absent or falsy) and the
caller has explicitly set the phase's review status to `"approved"` or
`"feedback"`, the phase's router returns exactly that value — regardless of
`autonomous_mode`, which no router consults; a recorded autonomous review,
however, overrides the explicit status (see the counterexample). -/
theorem C1_router_returns_explicit_status (st : SDLCState)
    (s1 s2 s3 s4 s5 s6 : String)
    (hv1 : s1 = "approved" ∨ s1 = "feedback")
    (hv2 : s2 = "approved" ∨ s2 = "feedback")
    (hv3 : s3 = "approved" ∨ s3 = "feedback")
    (hv4 : s4 = "approved" ∨ s4 = "feedback")
    (hv5 : s5 = "approved" ∨ s5 = "feedback")
    (hv6 : s6 = "approved" ∨ s6 = "feedback")
    (h1 : noAutoReview st "autonomous_code_review")
    (g1 : dictGet st "code_review_status" = some (.str s1))
    (h2 : noAutoReview st "autonomous_security_review")
    (g2 : dictGet st "security_review_status" = some (.str s2))
    (h3 : noAutoReview st "autonomous_test_review")
    (g3 : dictGet st "test_case_review_status" = some (.str s3))
    (h4 : noAutoReview st "autonomous_qa_review")
    (g4 : dictGet st "qa_testing_status" = some (.str s4))
    (h5 : noAutoReview st "autonomous_review")
    (g5 : dictGet st "user_stories_review_status" = some (.str s5))
    (h6 : noAutoReview st "autonomous_design_review")
    (g6 : dictGet st "design_documents_review_status" = some (.str s6)) :
    autonomous_code_review_router st = .ok (.str s1) ∧
    autonomous_security_review_router st = .ok (.str s2) ∧
    autonomous_test_cases_router st = .ok (.str s3) ∧
    autonomous_qa_review_router st = .ok (.str s4) ∧
    autonomous_user_stories_router st = .ok (.str s5) ∧
    autonomous_design_documents_router st = .ok (.str s6) := by
  obtain ⟨f1, hf1, ht1⟩ := h1
  obtain ⟨f2, hf2, ht2⟩ := h2
  obtain ⟨f3, hf3, ht3⟩ := h3
  obtain ⟨f4, hf4, ht4⟩ := h4
  obtain ⟨f5, hf5, ht5⟩ := h5
  obtain ⟨f6, hf6, ht6⟩ := h6
  refine ⟨?_, ?_, ?_, ?_, ?_, ?_⟩
  · simp only [autonomous_code_review_router, hf1, ht1]
    simp [dictGetD, g1]
  · simp only [autonomous_security_review_router, hf2, ht2]
    simp [dictGetD, g2]
  · simp only [autonomous_test_cases_router, hf3, ht3]
    simp [dictGetD, g3]
  · simp only [autonomous_qa_review_router, hf4, ht4]
    simp [dictGetD, g4]
  · simp only [autonomous_user_stories_router, hf5, ht5]
    simp [dictGetD, g5]
  · simp only [autonomous_design_documents_router, hf6, ht6]
    simp [dictGetD, g6]

/-- Witness for C1: a concrete non-autonomous state with every gate's status
explicitly `"feedback"` and no recorded autonomous review; every router
returns `"feedback"` verbatim. -/
theorem C1_router_returns_explicit_status_witness :
    autonomous_code_review_router
        [("autonomous_mode", .bool false),
         ("code_review_status", .str "feedback"),
         ("security_review_status", .str "feedback"),
         ("test_case_review_status", .str "feedback"),
         ("qa_testing_status", .str "feedback"),
         ("user_stories_review_status", .str "feedback"),
         ("design_documents_review_status", .str "feedback")]
      = .ok (.str "feedback") := by
  exact (C1_router_returns_explicit_status
    [("autonomous_mode", .bool false),
     ("code_review_status", .str "feedback"),
     ("security_review_status", .str "feedback"),
     ("test_case_review_status", .str "feedback"),
     ("qa_testing_status", .str "feedback"),
     ("user_stories_review_status", .str "feedback"),
     ("design_documents_review_status", .str "feedback")]
    "feedback" "feedback" "feedback" "feedback" "feedback" "feedback"
    (Or.inr rfl) (Or.inr rfl) (Or.inr rfl) (Or.inr rfl) (Or.inr rfl) (Or.inr rfl)
    ⟨.null, rfl, rfl⟩ rfl ⟨.null, rfl, rfl⟩ rfl ⟨.null, rfl, rfl⟩ rfl
    ⟨.null, rfl, rfl⟩ rfl ⟨.null, rfl, rfl⟩ rfl ⟨.null, rfl, rfl⟩ rfl).1

/-- Writing a key and reading it back yields the written value. -/
theorem dictGet_dictSet_self (d : List (String × Val)) (k : String) (v : Val) :
    dictGet (dictSet d k v) k = some v := by
  induction d with
  | nil => simp [dictSet, dictGet]
  | cons hd tl ih =>
    obtain ⟨k', v'⟩ := hd
    by_cases h : k' = k
    · simp [dictSet, dictGet, h]
    · simp [dictSet, dictGet, h, ih]

/-- Writing one key leaves every other key's binding unchanged. -/
theorem dictGet_dictSet_ne (d : List (String × Val)) (k k' : String) (v : Val)
    (h : k' ≠ k) : dictGet (dictSet d k v) k' = dictGet d k' := by
  induction d with
  | nil => simp [dictSet, dictGet, Ne.symm h]
  | cons hd tl ih =>
    obtain ⟨k0, v0⟩ := hd
    by_cases h0 : k0 = k
    · subst h0
      simp [dictSet, dictGet, Ne.symm h]
    · simp only [dictSet, if_neg h0, dictGet]
      by_cases h1 : k0 = k'
      · simp [h1]
      · simp [h1, ih]

/-- C2 counterexample: saving a workflow state itself (a field mapping) and
loading it back does not return the state — `get_state_from_redis`
subscripts the parsed document with `0` (redis_cache.py line 51), and a
dict parsed back from JSON has only string keys, so the load raises
`KeyError` instead. -/
theorem C2_counterexample :
    get_state_from_redis
        (save_state_to_redis [] "session-1"
          (.obj [("project_name", .str "demo"), ("autonomous_mode", .bool false)]))
        "session-1"
      = .error (.keyError "0") ∧
    Except.error (.keyError "0")
      ≠ (Except.ok (some [("project_name", Val.str "demo"),
          ("autonomous_mode", Val.bool false)]) :
            Except PyErr (Option SDLCState)) := by
  refine ⟨rfl, fun h => by cases h⟩

/-- C2 (amended): the round-trip holds exactly for the snapshot-wrapped
layout the executor actually saves (`graph.get_state(thread)`, a tuple whose
first component is the state's field mapping): saving, under any session id
into any cache, a sequence whose first element is the field mapping and then
loading that id returns precisely those fields; saving a bare field mapping
instead makes the load raise (see the counterexample). -/
theorem C2_snapshot_round_trip (cache : Cache) (task_id : String)
    (fields : List (String × Val)) (rest : List Val) :
    get_state_from_redis
        (save_state_to_redis cache task_id (.arr (.obj fields :: rest)))
        task_id
      = .ok (some fields) := by
  simp [get_state_from_redis, save_state_to_redis, dictGet_dictSet_self,
    pyIndexZero, sdlcStateOfDict]

/-- A second session's saved snapshot, present in the store before a new
workflow is started. -/
def c3OtherSessionCache : Cache :=
  save_state_to_redis [] "autonomous-sdlc-aaaaaaaa"
    (.arr [.obj [("project_name", .str "existing"),
                 ("next_node", .str GENERATE_USER_STORIES)]])

/-- C3 counterexample: session `autonomous-sdlc-aaaaaaaa` has a loadable
saved state, but after `start_autonomous_workflow` creates the distinct
session `autonomous-sdlc-bbbbbbbb` (flushing the whole cache first,
autonomous_graph_executor.py line 61), the first session's state is gone:
loading it returns not-found instead of the saved state. -/
theorem C3_counterexample :
    get_state_from_redis c3OtherSessionCache "autonomous-sdlc-aaaaaaaa"
      = .ok (some [("project_name", .str "existing"),
                   ("next_node", .str GENERATE_USER_STORIES)]) ∧
    get_state_from_redis
        (start_autonomous_workflow_cache c3OtherSessionCache
          "autonomous-sdlc-bbbbbbbb" (.arr [.obj [("project_name", .str "new")]]))
        "autonomous-sdlc-aaaaaaaa"
      = .ok none ∧
    ("autonomous-sdlc-aaaaaaaa" : String) ≠ "autonomous-sdlc-bbbbbbbb" := by
  refine ⟨rfl, rfl, by decide⟩

/-- C3 (amended): starting a new workflow flushes the entire session store
before saving the new session, so afterwards every other session id — in
particular any previously saved one — loads as not-found; sessions are not
independent across `start_autonomous_workflow`. -/
theorem C3_start_erases_every_other_session (cache : Cache)
    (new_id other_id : String) (snapshot : Val) (h : other_id ≠ new_id) :
    get_state_from_redis
        (start_autonomous_workflow_cache cache new_id snapshot) other_id
      = .ok none := by
  simp [start_autonomous_workflow_cache, save_state_to_redis,
    flush_redis_cache, get_state_from_redis, dictSet, dictGet, Ne.symm h]

/-- Witness for C3: starting session `autonomous-sdlc-bbbbbbbb` leaves the
distinct id `autonomous-sdlc-aaaaaaaa` unloadable. -/
theorem C3_start_erases_every_other_session_witness :
    get_state_from_redis
        (start_autonomous_workflow_cache c3OtherSessionCache
          "autonomous-sdlc-bbbbbbbb" (.arr [.obj [("project_name", .str "new")]]))
        "autonomous-sdlc-aaaaaaaa"
      = .ok none :=
  C3_start_erases_every_other_session c3OtherSessionCache
    "autonomous-sdlc-bbbbbbbb" "autonomous-sdlc-aaaaaaaa"
    (.arr [.obj [("project_name", .str "new")]]) (by decide)

/-! ### Completion percentage and the feedback/approve state updates
(`autonomous_graph_executor.py`) -/

/-- The static weight table of
`AutonomousGraphExecutor._calculate_completion_percentage`
(autonomous_graph_executor.py lines 323-334): only the ten work-phase names
carry a weight. -/
def phase_weights : List (String × Int) :=
  [(PROJECT_INITILIZATION, 5), (REQUIREMENT_COLLECTION, 10),
   (GENERATE_USER_STORIES, 20), (CREATE_DESIGN_DOC, 35),
   (CODE_GENERATION, 50), (SECURITY_REVIEW, 60),
   (WRITE_TEST_CASES, 70), (QA_TESTING, 80),
   (DEPLOYMENT, 90), (ARTIFACTS, 100)]

/-- `_calculate_completion_percentage` (autonomous_graph_executor.py lines
321-337): the weight of the state's `next_node`, with
`phase_weights.get(current_phase, 0)` defaulting to `0` for every name
outside the table — review-phase names included. -/
def calculate_completion_percentage (st : SDLCState) : Int :=
  match dictGetD st "next_node" (.str PROJECT_INITILIZATION) with
  | .str s => (phase_weights.lookup s).getD 0
  | _ => 0

/-- The state mutation `handle_autonomous_feedback` performs before resuming
the graph (autonomous_graph_executor.py lines 166-204): set the gate's
status to `"feedback"`, store the feedback text, and point `next_node` at
the gate's review-phase name.  The review/revise nodes the resumed graph
then runs never write `next_node` (`autonomous_nodes.py`: only
`initialize_project` does), so this is the value the status operation reads
back from the persisted state. -/
def handle_autonomous_feedback_update (st : SDLCState)
    (review_type feedback : String) : SDLCState :=
  if review_type = REVIEW_USER_STORIES then
    dictSet (dictSet (dictSet st "user_stories_review_status" (.str "feedback"))
      "user_stories_feedback" (.str feedback)) "next_node" (.str REVIEW_USER_STORIES)
  else if review_type = REVIEW_DESIGN_DOCUMENTS then
    dictSet (dictSet (dictSet st "design_documents_review_status" (.str "feedback"))
      "design_documents_feedback" (.str feedback)) "next_node" (.str REVIEW_DESIGN_DOCUMENTS)
  else if review_type = REVIEW_CODE then
    dictSet (dictSet (dictSet st "code_review_status" (.str "feedback"))
      "code_review_feedback" (.str feedback)) "next_node" (.str REVIEW_CODE)
  else if review_type = REVIEW_SECURITY_RECOMMENDATIONS then
    dictSet (dictSet (dictSet st "security_review_status" (.str "feedback"))
      "security_review_comments" (.str feedback)) "next_node"
      (.str REVIEW_SECURITY_RECOMMENDATIONS)
  else if review_type = REVIEW_TEST_CASES then
    dictSet (dictSet (dictSet st "test_case_review_status" (.str "feedback"))
      "test_case_review_feedback" (.str feedback)) "next_node" (.str REVIEW_TEST_CASES)
  else if review_type = REVIEW_QA_TESTING then
    dictSet (dictSet (dictSet st "qa_testing_status" (.str "feedback"))
      "qa_testing_feedback" (.str feedback)) "next_node" (.str REVIEW_QA_TESTING)
  else st

/-- The state mutation `approve_autonomous_stage` performs before resuming
the graph (autonomous_graph_executor.py lines 240-268): set the gate's
status to `"approved"` and point `next_node` at the mapped next work
phase. -/
def approve_autonomous_stage_update (st : SDLCState) (review_type : String) :
    SDLCState :=
  if review_type = REVIEW_USER_STORIES then
    dictSet (dictSet st "user_stories_review_status" (.str "approved"))
      "next_node" (.str CREATE_DESIGN_DOC)
  else if review_type = REVIEW_DESIGN_DOCUMENTS then
    dictSet (dictSet st "design_documents_review_status" (.str "approved"))
      "next_node" (.str CODE_GENERATION)
  else if review_type = REVIEW_CODE then
    dictSet (dictSet st "code_review_status" (.str "approved"))
      "next_node" (.str SECURITY_REVIEW)
  else if review_type = REVIEW_SECURITY_RECOMMENDATIONS then
    dictSet (dictSet st "security_review_status" (.str "approved"))
      "next_node" (.str WRITE_TEST_CASES)
  else if review_type = REVIEW_TEST_CASES then
    dictSet (dictSet st "test_case_review_status" (.str "approved"))
      "next_node" (.str QA_TESTING)
  else if review_type = REVIEW_QA_TESTING then
    dictSet (dictSet st "qa_testing_status" (.str "approved"))
      "next_node" (.str DEPLOYMENT)
  else st

/-- C5 counterexample: on a concrete session, approving the user-stories
gate reports 35 percent (`next_node = create-design`), and a subsequent
feedback on the design gate reports 0 percent (`next_node` becomes the
review-phase name, which carries no weight) — the reported completion
percentage strictly decreases on a revision loop. -/
theorem C5_counterexample :
    calculate_completion_percentage
        (approve_autonomous_stage_update [("project_name", .str "demo")]
          REVIEW_USER_STORIES)
      = 35 ∧
    calculate_completion_percentage
        (handle_autonomous_feedback_update
          (approve_autonomous_stage_update [("project_name", .str "demo")]
            REVIEW_USER_STORIES)
          REVIEW_DESIGN_DOCUMENTS "too generic")
      = 0 ∧
    (0 : Int) < 35 := by
  refine ⟨rfl, rfl, by decide⟩

/-- C5 (amended): the reported completion percentage is the static weight of
the session's `next_node` and is not monotone: from any state, approving the
user-stories gate makes the status operation report 35, and a following
feedback on the design gate makes it report 0 — feedback moves `next_node`
to a review-phase name outside the weight table, so every revision loop
drops the reported percentage to 0. -/
theorem C5_completion_percentage_drops_on_feedback (st : SDLCState)
    (fb : String) :
    calculate_completion_percentage
        (approve_autonomous_stage_update st REVIEW_USER_STORIES) = 35 ∧
    calculate_completion_percentage
        (handle_autonomous_feedback_update
          (approve_autonomous_stage_update st REVIEW_USER_STORIES)
          REVIEW_DESIGN_DOCUMENTS fb) = 0 ∧
    (0 : Int) < 35 := by
  have h1 : dictGet (approve_autonomous_stage_update st REVIEW_USER_STORIES)
      "next_node" = some (.str CREATE_DESIGN_DOC) := by
    simp [approve_autonomous_stage_update, dictGet_dictSet_self]
  have h2 : dictGet (handle_autonomous_feedback_update
        (approve_autonomous_stage_update st REVIEW_USER_STORIES)
        REVIEW_DESIGN_DOCUMENTS fb)
      "next_node" = some (.str REVIEW_DESIGN_DOCUMENTS) := by
    simp [handle_autonomous_feedback_update, REVIEW_DESIGN_DOCUMENTS,
      REVIEW_USER_STORIES, dictGet_dictSet_self]
  refine ⟨?_, ?_, by decide⟩
  · simp only [calculate_completion_percentage, dictGetD, h1, Option.getD_some]
    decide
  · simp only [calculate_completion_percentage, dictGetD, h2, Option.getD_some]
    decide

/-! ### Session lookup guard of the continue/feedback/approve operations -/

/-- The `ValueError` raised when a session lookup comes back empty
(`No saved state found for task_id: ...`). -/
def noSavedStateErr (task_id : String) : PyErr :=
  .valueError ("No saved state found for task_id: " ++ task_id)

/-- The shared opening of the three stateful operations
(autonomous_graph_executor.py lines 108-111, 153-155 and 231-233): load the
session and raise the `ValueError` when `not saved_state` — i.e. when the
lookup misses or the loaded state is Python-falsy (the empty mapping). -/
def requireSavedState (cache : Cache) (task_id : String) :
    Except PyErr SDLCState :=
  match get_state_from_redis cache task_id with
  | .error e => .error e
  | .ok none => .error (noSavedStateErr task_id)
  | .ok (some st) =>
    if st.isEmpty then .error (noSavedStateErr task_id) else .ok st

/-- Session lookup of `AutonomousGraphExecutor.continue_autonomous_workflow`
(autonomous_graph_executor.py lines 108-111). -/
def continue_autonomous_workflow_load (cache : Cache) (task_id : String) :
    Except PyErr SDLCState :=
  requireSavedState cache task_id

/-- Session lookup of `AutonomousGraphExecutor.handle_autonomous_feedback`
(autonomous_graph_executor.py lines 153-155). -/
def handle_autonomous_feedback_load (cache : Cache) (task_id : String) :
    Except PyErr SDLCState :=
  requireSavedState cache task_id

/-- Session lookup of `AutonomousGraphExecutor.approve_autonomous_stage`
(autonomous_graph_executor.py lines 231-233). -/
def approve_autonomous_stage_load (cache : Cache) (task_id : String) :
    Except PyErr SDLCState :=
  requireSavedState cache task_id

/-- The load path raises only `KeyError`/`IndexError`/`TypeError`, never a
`ValueError`: the session-not-found `ValueError` cannot originate inside
`get_state_from_redis`. -/
theorem get_state_from_redis_no_valueError (cache : Cache) (task_id m : String) :
    get_state_from_redis cache task_id ≠ .error (.valueError m) := by
  unfold get_state_from_redis
  cases hd : dictGet cache task_id with
  | none => simp
  | some doc =>
    cases doc with
    | null => simp [pyIndexZero]
    | bool b => simp [pyIndexZero]
    | int n => simp [pyIndexZero]
    | str s =>
      cases hs : s.data with
      | nil => simp [pyIndexZero, hs]
      | cons c cs => simp [pyIndexZero, hs, sdlcStateOfDict]
    | arr xs =>
      cases xs with
      | nil => simp [pyIndexZero]
      | cons x rest =>
        cases x <;> simp [pyIndexZero, sdlcStateOfDict]
    | obj fs => simp [pyIndexZero]

/-- The guard errs with the session-not-found `ValueError` exactly when the
lookup misses or returns the empty state. -/
theorem requireSavedState_error_iff (cache : Cache) (task_id : String) :
    requireSavedState cache task_id = .error (noSavedStateErr task_id) ↔
      get_state_from_redis cache task_id = .ok none ∨
      get_state_from_redis cache task_id = .ok (some []) := by
  unfold requireSavedState
  cases hg : get_state_from_redis cache task_id with
  | error e =>
    have hne : e ≠ noSavedStateErr task_id := by
      intro he
      rw [he] at hg
      exact get_state_from_redis_no_valueError cache task_id
        ("No saved state found for task_id: " ++ task_id)
        (by simpa [noSavedStateErr] using hg)
    simp [hne]
  | ok o =>
    cases o with
    | none => simp
    | some st =>
      cases st with
      | nil => simp
      | cons a l => simp

/-- C7 counterexample: a session whose saved snapshot wraps the empty state
mapping loads successfully (a saved state exists for the id), yet the
continue operation still raises the session-not-found `ValueError` — the
`if not saved_state` guard also fires on a falsy (empty) state, so the error
is not raised only when no saved state exists. -/
theorem C7_counterexample :
    get_state_from_redis (save_state_to_redis [] "t1" (.arr [.obj []])) "t1"
      = .ok (some []) ∧
    continue_autonomous_workflow_load
        (save_state_to_redis [] "t1" (.arr [.obj []])) "t1"
      = .error (noSavedStateErr "t1") := by
  exact ⟨rfl, rfl⟩

/-- C7 (amended): each of the continue, feedback and approve operations
raises the session-not-found `ValueError` — surfaced directly to the caller,
with no internal retry — if and only if the session store has no entry for
the id or the loaded state is empty (Python-falsy); with a non-empty saved
state the error is never raised. -/
theorem C7_session_not_found_iff (cache : Cache) (task_id : String) :
    (continue_autonomous_workflow_load cache task_id
        = .error (noSavedStateErr task_id) ↔
      get_state_from_redis cache task_id = .ok none ∨
      get_state_from_redis cache task_id = .ok (some [])) ∧
    (handle_autonomous_feedback_load cache task_id
        = .error (noSavedStateErr task_id) ↔
      get_state_from_redis cache task_id = .ok none ∨
      get_state_from_redis cache task_id = .ok (some [])) ∧
    (approve_autonomous_stage_load cache task_id
        = .error (noSavedStateErr task_id) ↔
      get_state_from_redis cache task_id = .ok none ∨
      get_state_from_redis cache task_id = .ok (some [])) := by
  refine ⟨?_, ?_, ?_⟩ <;>
    simpa [continue_autonomous_workflow_load, handle_autonomous_feedback_load,
      approve_autonomous_stage_load] using
      requireSavedState_error_iff cache task_id

/-! ### Agent coordination (`agent_manager.py`) -/

/-- The agent roles of `base_agent.py` lines 20-29; every agent's `name` is
`role.value + "_agent"` (line 60). -/
inductive AgentRole where
  | project_manager
  | business_analyst
  | software_architect
  | developer
  | security_expert
  | qa_engineer
  | devops_engineer
  | product_owner
deriving DecidableEq

/-- `AgentManager._create_phase_mapping` (agent_manager.py lines 57-69): the
static phase-to-agents table.  `generate-user-stories` and `qa-testing` are
the single-agent phases. -/
def phase_agent_mapping : List (String × List AgentRole) :=
  [(PROJECT_INITILIZATION, [.project_manager]),
   (REQUIREMENT_COLLECTION, [.project_manager, .business_analyst]),
   (GENERATE_USER_STORIES, [.business_analyst]),
   (CREATE_DESIGN_DOC, [.software_architect, .business_analyst]),
   (CODE_GENERATION, [.developer, .software_architect]),
   (SECURITY_REVIEW, [.security_expert, .developer]),
   (WRITE_TEST_CASES, [.qa_engineer, .developer]),
   (QA_TESTING, [.qa_engineer]),
   (DEPLOYMENT, [.devops_engineer, .developer])]

/-- An agent as `execute_phase` drives it: `autonomous_work` (base_agent.py
lines 77-108) may update the state or raise, and `collaborate` (lines
110-130) may return the collaboration results or raise; the other agents it
collaborates with are fixed per phase, so the call is a function of the
state.  The `str(e)` of a raised exception is the `String` of `.error`. -/
structure AgentModel where
  name : String
  autonomous_work : SDLCState → Except String SDLCState
  collaborate : SDLCState → Except String Val

/-- The per-agent loop of `AgentManager.execute_phase` (agent_manager.py
lines 127-150).  `hasOthers` says whether
`[a for a in responsible_agents if a != agent]` is non-empty; with the
distinct agent instances delivered by the static phase mapping this is
`2 ≤ agents.length`, the same for every iteration.  A
`{completed: True, collaboration: ...}` entry is recorded only inside the
`if other_agents:` block; an exception from either step records
`{completed: False, error: str(e)}` and the loop continues with the next
agent, keeping the last successfully assigned state. -/
def executePhaseLoop (hasOthers : Bool) :
    List AgentModel → SDLCState → List (String × Val) →
      SDLCState × List (String × Val)
  | [], st, results => (st, results)
  | a :: rest, st, results =>
    match a.autonomous_work st with
    | .error e =>
      executePhaseLoop hasOthers rest st
        (dictSet results a.name
          (.obj [("completed", .bool false), ("error", .str e)]))
    | .ok st' =>
      if hasOthers then
        match a.collaborate st' with
        | .ok col =>
          executePhaseLoop hasOthers rest st'
            (dictSet results a.name
              (.obj [("completed", .bool true), ("collaboration", col)]))
        | .error e =>
          executePhaseLoop hasOthers rest st'
            (dictSet results a.name
              (.obj [("completed", .bool false), ("error", .str e)]))
      else executePhaseLoop hasOthers rest st' results

/-- `AgentManager.execute_phase` (agent_manager.py lines 111-162): with no
responsible agents the state is returned unchanged (lines 119-121);
otherwise the agents run in sequence and the collected `execution_results`
dict is stored under the phase's key of `agent_execution_log` (lines
152-155; a present non-dict log value would make the item assignment
raise). -/
def execute_phase (phase : String) (agents : List AgentModel)
    (st : SDLCState) : Except PyErr SDLCState :=
  if agents.isEmpty then .ok st
  else
    match executePhaseLoop (decide (2 ≤ agents.length)) agents st [] with
    | (st', results) =>
      match dictGetD st' "agent_execution_log" (.obj []) with
      | .obj log =>
        .ok (dictSet st' "agent_execution_log"
          (.obj (dictSet log phase (.obj results))))
      | _ => .error (.typeError "log item assignment on a non-dict value")

/-- C6: per-agent failure isolation in a two-agent phase.  When the first
agent's work raises and the second agent's work and collaboration succeed,
`execute_phase` catches the exception, records a `completed: False` entry
carrying the error text for the failing agent, still runs the second agent
to completion (the returned state is the second agent's updated state), and
the phase's execution-log bucket holds exactly one failure entry and one
success entry. -/
theorem C6_agent_failure_is_isolated (phase : String) (a b : AgentModel)
    (st stB : SDLCState) (e : String) (col : Val) (log : List (String × Val))
    (hname : a.name ≠ b.name)
    (ha : a.autonomous_work st = .error e)
    (hb : b.autonomous_work st = .ok stB)
    (hcol : b.collaborate stB = .ok col)
    (hlog : dictGetD stB "agent_execution_log" (.obj []) = .obj log) :
    execute_phase phase [a, b] st
      = .ok (dictSet stB "agent_execution_log"
          (.obj (dictSet log phase
            (.obj [(a.name, .obj [("completed", .bool false), ("error", .str e)]),
                   (b.name, .obj [("completed", .bool true),
                                  ("collaboration", col)])])))) := by
  simp only [execute_phase, List.isEmpty, executePhaseLoop, ha, hb, hcol,
    List.length, hlog]
  norm_num [executePhaseLoop, dictSet, hname]
  rw [hlog]

/-- Witness for C6: the architect raises, the analyst succeeds and still
populates the design artifact; the create-design bucket records one
failure and one success entry. -/
theorem C6_agent_failure_is_isolated_witness :
    execute_phase CREATE_DESIGN_DOC
        [⟨"software_architect_agent", fun _ => .error "LLM timeout",
          fun _ => .ok .null⟩,
         ⟨"business_analyst_agent",
          fun s => .ok (dictSet s "design_documents" (.str "doc")),
          fun _ => .ok (.obj [])⟩]
        [("project_name", .str "demo")]
      = .ok (dictSet
          (dictSet [("project_name", .str "demo")] "design_documents" (.str "doc"))
          "agent_execution_log"
          (.obj (dictSet [] CREATE_DESIGN_DOC
            (.obj [("software_architect_agent",
                    .obj [("completed", .bool false), ("error", .str "LLM timeout")]),
                   ("business_analyst_agent",
                    .obj [("completed", .bool true),
                          ("collaboration", .obj [])])])))) :=
  C6_agent_failure_is_isolated CREATE_DESIGN_DOC
    ⟨"software_architect_agent", fun _ => .error "LLM timeout", fun _ => .ok .null⟩
    ⟨"business_analyst_agent",
      fun s => .ok (dictSet s "design_documents" (.str "doc")),
      fun _ => .ok (.obj [])⟩
    [("project_name", .str "demo")]
    (dictSet [("project_name", .str "demo")] "design_documents" (.str "doc"))
    "LLM timeout" (.obj []) []
    (by decide) rfl rfl rfl rfl

/-- C10: a single-agent phase records no execution-log entry on success.
The static mapping assigns exactly one agent to `generate-user-stories`
(the business analyst) and to `qa-testing` (the QA engineer); for any such
single-agent list whose work succeeds, `execute_phase` writes an empty
results dict as the phase's bucket — the `completed: True` entry is only
written when other agents exist — and consequently the user-stories
router's business-analyst check on the updated state comes out false. -/
theorem C10_single_agent_success_records_no_entry (phase : String)
    (a : AgentModel) (st st' : SDLCState) (log : List (String × Val))
    (ha : a.autonomous_work st = .ok st')
    (hlog : dictGetD st' "agent_execution_log" (.obj []) = .obj log) :
    phase_agent_mapping.lookup GENERATE_USER_STORIES = some [.business_analyst] ∧
    phase_agent_mapping.lookup QA_TESTING = some [.qa_engineer] ∧
    execute_phase phase [a] st
      = .ok (dictSet st' "agent_execution_log"
          (.obj (dictSet log phase (.obj [])))) ∧
    userStoriesAutoCheck
        (dictSet st' "agent_execution_log"
          (.obj (dictSet log GENERATE_USER_STORIES (.obj [])))) = .ok false := by
  refine ⟨by decide, by decide, ?_, ?_⟩
  · simp only [execute_phase, List.isEmpty, executePhaseLoop, ha, List.length,
      hlog]
    norm_num [executePhaseLoop]
    rw [hlog]
  · simp [userStoriesAutoCheck, dictGetD, dictGet_dictSet_self, Val.pyGetD,
      Val.truthy]

/-- Witness for C10: a succeeding business analyst on the user-stories
phase leaves an empty bucket. -/
theorem C10_single_agent_success_records_no_entry_witness :
    execute_phase GENERATE_USER_STORIES
        [⟨"business_analyst_agent",
          fun s => .ok (dictSet s "user_stories" (.str "stories")),
          fun _ => .ok .null⟩]
        [("project_name", .str "demo")]
      = .ok (dictSet
          (dictSet [("project_name", .str "demo")] "user_stories" (.str "stories"))
          "agent_execution_log"
          (.obj (dictSet [] GENERATE_USER_STORIES (.obj [])))) :=
  (C10_single_agent_success_records_no_entry GENERATE_USER_STORIES
    ⟨"business_analyst_agent",
      fun s => .ok (dictSet s "user_stories" (.str "stories")),
      fun _ => .ok .null⟩
    [("project_name", .str "demo")]
    (dictSet [("project_name", .str "demo")] "user_stories" (.str "stories"))
    [] rfl rfl).2.2.1

/-- A state whose autonomous security review is recorded (truthy
`auto_reviewed`) while the phase's execution log carries a failure entry for
the security expert. -/
def c4State : SDLCState :=
  [("autonomous_security_review", .obj [("auto_reviewed", .bool true)]),
   ("agent_execution_log", .obj
     [(SECURITY_REVIEW, .obj
       [("security_expert_agent", .obj
         [("completed", .bool false), ("error", .str "scan crashed")])])])]

/-- C4 counterexample: the security-review router returns
`"autonomous_approve"` on a state whose execution log records an error
(`completed: False`) for the security expert and which holds no agent
decision or confidence value at all — the router fires on the
`auto_reviewed` flag alone (`autonomous_nodes.py` lines 471-476), so
`autonomous_approve` is not restricted to confidence at least 0.8 with no
recorded error. -/
theorem C4_counterexample :
    autonomous_security_review_router c4State = .ok (.str "autonomous_approve") ∧
    (dictGetD c4State "agent_execution_log" (.obj [])).pyGetD
        SECURITY_REVIEW (.obj [])
      = .ok (.obj [("security_expert_agent", .obj
          [("completed", .bool false), ("error", .str "scan crashed")])]) := by
  exact ⟨rfl, rfl⟩

/-- C4 (amended): no router consults a confidence value or the 0.8
threshold (the `confidence_threshold` binding is dead code).  The code,
security, test-case and QA routers return `"autonomous_approve"` whenever
the phase's `auto_reviewed` flag is truthy, regardless of errors; only the
user-stories and design routers additionally require the responsible
agent's execution-log entry to be completed and error-free. -/
theorem C4_autonomous_approve_ignores_confidence (st st' : SDLCState)
    (f g : Val)
    (hsec : (dictGetD st "autonomous_security_review" (.obj [])).pyGet
        "auto_reviewed" = .ok f)
    (hft : f.truthy = true)
    (hus : (dictGetD st' "autonomous_review" (.obj [])).pyGet
        "auto_reviewed" = .ok g)
    (hgt : g.truthy = true)
    (hchk : userStoriesAutoCheck st' = .ok true) :
    autonomous_security_review_router st = .ok (.str "autonomous_approve") ∧
    autonomous_user_stories_router st' = .ok (.str "autonomous_approve") := by
  constructor
  · simp only [autonomous_security_review_router, hsec, hft, if_true]
  · simp only [autonomous_user_stories_router, hus, hgt, if_true, hchk]

/-- Witness for C4: the security router auto-approves on `c4State`, and the
user-stories router auto-approves on a state with a completed, error-free
business-analyst entry. -/
theorem C4_autonomous_approve_ignores_confidence_witness :
    autonomous_security_review_router c4State
      = .ok (.str "autonomous_approve") :=
  (C4_autonomous_approve_ignores_confidence c4State
    [("autonomous_review", .obj [("auto_reviewed", .bool true)]),
     ("agent_execution_log", .obj
       [(GENERATE_USER_STORIES, .obj
         [("business_analyst_agent", .obj [("completed", .bool true)])])])]
    (.bool true) (.bool true) rfl rfl rfl rfl rfl).1

/-- C9: every gate router falls back to `"approved"` when the state sets no
explicit review status and the autonomous branch does not apply — the flag
read succeeds with a non-truthy value (for the user-stories and design
routers, a truthy flag whose log check does not pass also falls through to
the same default), so the workflow never blocks on an undetermined review
status. -/
theorem C9_router_defaults_to_approved (st : SDLCState)
    (f1 f2 f3 f4 f5 f6 : Val)
    (hf1 : (dictGetD st "autonomous_code_review" (.obj [])).pyGet
        "auto_reviewed" = .ok f1)
    (ht1 : f1.truthy = false)
    (g1 : dictGet st "code_review_status" = none)
    (hf2 : (dictGetD st "autonomous_security_review" (.obj [])).pyGet
        "auto_reviewed" = .ok f2)
    (ht2 : f2.truthy = false)
    (g2 : dictGet st "security_review_status" = none)
    (hf3 : (dictGetD st "autonomous_test_review" (.obj [])).pyGet
        "auto_reviewed" = .ok f3)
    (ht3 : f3.truthy = false)
    (g3 : dictGet st "test_case_review_status" = none)
    (hf4 : (dictGetD st "autonomous_qa_review" (.obj [])).pyGet
        "auto_reviewed" = .ok f4)
    (ht4 : f4.truthy = false)
    (g4 : dictGet st "qa_testing_status" = none)
    (hf5 : (dictGetD st "autonomous_review" (.obj [])).pyGet
        "auto_reviewed" = .ok f5)
    (ht5 : f5.truthy = true → userStoriesAutoCheck st ≠ .ok true)
    (g5 : dictGet st "user_stories_review_status" = none)
    (hf6 : (dictGetD st "autonomous_design_review" (.obj [])).pyGet
        "auto_reviewed" = .ok f6)
    (ht6 : f6.truthy = true → designAutoCheck st ≠ .ok true)
    (g6 : dictGet st "design_documents_review_status" = none) :
    autonomous_code_review_router st = .ok (.str "approved") ∧
    autonomous_security_review_router st = .ok (.str "approved") ∧
    autonomous_test_cases_router st = .ok (.str "approved") ∧
    autonomous_qa_review_router st = .ok (.str "approved") ∧
    autonomous_user_stories_router st = .ok (.str "approved") ∧
    autonomous_design_documents_router st = .ok (.str "approved") := by
  refine ⟨?_, ?_, ?_, ?_, ?_, ?_⟩
  · simp only [autonomous_code_review_router, hf1, ht1]
    simp [dictGetD, g1]
  · simp only [autonomous_security_review_router, hf2, ht2]
    simp [dictGetD, g2]
  · simp only [autonomous_test_cases_router, hf3, ht3]
    simp [dictGetD, g3]
  · simp only [autonomous_qa_review_router, hf4, ht4]
    simp [dictGetD, g4]
  · simp only [autonomous_user_stories_router, hf5]
    cases hb : f5.truthy with
    | false => simp [dictGetD, g5]
    | true =>
      simp only [if_true]
      cases hc : userStoriesAutoCheck st with
      | error e => simp [dictGetD, g5]
      | ok b =>
        cases b with
        | false => simp [dictGetD, g5]
        | true => exact absurd hc (ht5 hb)
  · simp only [autonomous_design_documents_router, hf6]
    cases hb : f6.truthy with
    | false => simp [dictGetD, g6]
    | true =>
      simp only [if_true]
      cases hc : designAutoCheck st with
      | error e => simp [dictGetD, g6]
      | ok b =>
        cases b with
        | false => simp [dictGetD, g6]
        | true => exact absurd hc (ht6 hb)

/-- Witness for C9: on the empty state — no review status set, no
autonomous review recorded — every gate router returns `"approved"`. -/
theorem C9_router_defaults_to_approved_witness :
    autonomous_qa_review_router [] = .ok (.str "approved") :=
  (C9_router_defaults_to_approved []
    .null .null .null .null .null .null
    rfl rfl rfl rfl rfl rfl rfl rfl rfl rfl rfl rfl
    rfl (fun h => by cases h) rfl
    rfl (fun h => by cases h) rfl).2.2.2.1

/-! ### Connector gateway (`connector_manager.py`, `base_connector.py`) -/

/-- `ConnectorStatus` (base_connector.py lines 28-33). -/
inductive ConnectorStatus where
  | connected
  | disconnected
  | errored
  | authenticating
deriving DecidableEq

/-- `ConnectorResponse` (base_connector.py lines 47-53): the uniform
envelope of every connector call.  The `timestamp` field (wall-clock
default) and the never-written `status_code` are omitted; neither is read
by the manager. -/
structure ConnectorResponse where
  success : Bool
  data : Option Val
  error : Option String

/-- A connector instance as the manager drives it: its status plus the
`get_data`/`send_data`/`test_connection` handlers of the concrete
connector class, each of which may return an envelope or raise (the raised
exception's `str(e)` is the `String` of `.error`). -/
structure Connector where
  status : ConnectorStatus
  get_data : Val → Except String ConnectorResponse
  send_data : Val → Except String ConnectorResponse
  test_connection : Unit → Except String ConnectorResponse

/-- `BaseConnector.is_connected` (base_connector.py lines 100-102). -/
def is_connected (c : Connector) : Bool :=
  decide (c.status = ConnectorStatus.connected)

/-- `BaseConnector.health_check` (base_connector.py lines 104-119): a
disconnected connector yields a failure envelope; otherwise
`test_connection` runs and any exception it raises is caught and converted
into a failure envelope — the call never raises. -/
def health_check (c : Connector) : ConnectorResponse :=
  if is_connected c then
    match c.test_connection () with
    | .ok r => r
    | .error e => ⟨false, none, some e⟩
  else ⟨false, none, some "Connector is not connected"⟩

/-- The manager's registry of initialized connectors
(`ConnectorManager.connectors`). -/
structure ConnectorManager where
  connectors : List (String × Connector)

/-- `ConnectorManager.execute_connector_action` (connector_manager.py lines
217-253): the whole dispatch runs inside `try`, and the `except` clause
converts any raised exception into a failure envelope, so the function
always returns a `ConnectorResponse` — for unknown connectors, disconnected
connectors, unknown actions, and raising handlers alike. -/
def execute_connector_action (m : ConnectorManager) (name action : String)
    (data : Option Val) : ConnectorResponse :=
  let body : Except String ConnectorResponse :=
    match m.connectors.lookup name with
    | none => .ok ⟨false, none, some ("Connector " ++ name ++ " not found")⟩
    | some c =>
      if is_connected c = false then
        .ok ⟨false, none, some ("Connector " ++ name ++ " is not connected")⟩
      else if action = "get_data" then c.get_data (data.getD (.obj []))
      else if action = "send_data" then c.send_data (data.getD (.obj []))
      else if action = "test_connection" then c.test_connection ()
      else if action = "health_check" then .ok (health_check c)
      else .ok ⟨false, none, some ("Unknown action: " ++ action)⟩
  match body with
  | .ok r => r
  | .error e => ⟨false, none, some e⟩

/-- C8: every call through the connector manager returns the
success/data/error envelope and never propagates an exception.  Unknown
connectors, disconnected connectors, and unknown actions each yield a
failure envelope with the corresponding message; a raising handler's
exception is caught and returned as a failure envelope carrying `str(e)`;
and `health_check` likewise returns a failure envelope when disconnected or
when `test_connection` raises. -/
theorem C8_connector_calls_return_envelope (m : ConnectorManager)
    (name action : String) (data : Option Val) (c : Connector) (e : String) :
    (m.connectors.lookup name = none →
      execute_connector_action m name action data
        = ⟨false, none, some ("Connector " ++ name ++ " not found")⟩) ∧
    (m.connectors.lookup name = some c → is_connected c = false →
      execute_connector_action m name action data
        = ⟨false, none, some ("Connector " ++ name ++ " is not connected")⟩) ∧
    (m.connectors.lookup name = some c → is_connected c = true →
      action ≠ "get_data" → action ≠ "send_data" →
      action ≠ "test_connection" → action ≠ "health_check" →
      execute_connector_action m name action data
        = ⟨false, none, some ("Unknown action: " ++ action)⟩) ∧
    (m.connectors.lookup name = some c → is_connected c = true →
      action = "get_data" → c.get_data (data.getD (.obj [])) = .error e →
      execute_connector_action m name action data = ⟨false, none, some e⟩) ∧
    (is_connected c = false →
      health_check c = ⟨false, none, some "Connector is not connected"⟩) ∧
    (is_connected c = true → c.test_connection () = .error e →
      health_check c = ⟨false, none, some e⟩) := by
  refine ⟨?_, ?_, ?_, ?_, ?_, ?_⟩
  · intro h
    simp [execute_connector_action, h]
  · intro h hc
    simp [execute_connector_action, h, hc]
  · intro h hc h1 h2 h3 h4
    simp [execute_connector_action, h, hc, h1, h2, h3, h4]
  · intro h hc ha hg
    simp [execute_connector_action, h, hc, ha, hg]
  · intro hc
    simp [health_check, hc]
  · intro hc ht
    simp [health_check, hc, ht]

/-- Witness for C8: on a one-connector manager, an unknown name yields the
not-found envelope. -/
theorem C8_connector_calls_return_envelope_witness :
    execute_connector_action
        ⟨[("slack", ⟨ConnectorStatus.connected,
          fun _ => .ok ⟨true, some (.obj []), none⟩,
          fun _ => .ok ⟨true, none, none⟩,
          fun _ => .ok ⟨true, none, none⟩⟩)]⟩
        "jira" "get_data" none
      = ⟨false, none, some ("Connector " ++ "jira" ++ " not found")⟩ :=
  (C8_connector_calls_return_envelope
    ⟨[("slack", ⟨ConnectorStatus.connected,
      fun _ => .ok ⟨true, some (.obj []), none⟩,
      fun _ => .ok ⟨true, none, none⟩,
      fun _ => .ok ⟨true, none, none⟩⟩)]⟩
    "jira" "get_data" none
    ⟨ConnectorStatus.connected,
      fun _ => .ok ⟨true, some (.obj []), none⟩,
      fun _ => .ok ⟨true, none, none⟩,
      fun _ => .ok ⟨true, none, none⟩⟩
    "err").1 rfl

end DevPilot
